import Mathlib

/-!
Shallow embedding of the IAP authentication / identity-provisioning core of
gen-tpl-express-server, with theorems checking the natural-language spec.

Source files embedded:
  * src/src/config.ts                                         (AppConfig)
  * src/src/http/nodegen/middleware/iapAuthMiddleware.ts      (getIAPConfig,
      buildExpectedAudience, createDevIAPUser, validateIAPToken payload
      extraction, middleware mode dispatch)
  * src/unnamed/part_002 (IapUserSessionService.findOrCreateUser)
  * src/unnamed/part_001 (SessionService.createSession / findOrCreateSession)
  * src/src/services/AccessTokenService.ts (validateRequest cookie path)

JavaScript truthiness of an optional string is modelled by `strTruthy`;
machine time is passed in explicitly (seconds or milliseconds as in the
source); database repositories that live outside src/ are modelled from the
spec where noted.
-/

namespace GenTpl

/-- JS truthiness of an optional string: present and non-empty. -/
def strTruthy : Option String → Bool
  | some s => s ≠ ""
  | none => false

/-- JS truthiness of an optional number claim (0 and undefined are falsy). -/
def natTruthy : Option Nat → Bool
  | some n => n ≠ 0
  | none => false

/-- devAutoSeed.user of config.ts / IAPConfig (iapAuthMiddleware.ts lines 31-34). -/
structure DevSeedUser where
  email : String
  name : String
deriving Repr, DecidableEq

/-- devAutoSeed block of IAPConfig (iapAuthMiddleware.ts lines 29-35). -/
structure DevAutoSeed where
  enabled : Bool
  user : DevSeedUser
deriving Repr, DecidableEq

/-- The environment-sourced application configuration (src/config.ts).
`iapEnabled` is the truthiness of `config.iap.enabled` (IAP_ENABLED);
`devSeedEnabled` the truthiness of `config.iap.devAutoSeed.enabled`, which
config.ts also sources from IAP_ENABLED.  The project identifiers default to
the empty string when unset (getOrSetDefault with '' default).  config.ts
always supplies the devAutoSeed object literal, so `devAutoSeed` is `some`
for configs produced by config.ts, but the field is optional in the
IAPConfig type it is cast to. -/
structure AppConfig where
  env : String
  iapEnabled : Bool
  projectNumber : String
  projectId : String
  backendServiceId : String
  devAutoSeed : Option DevAutoSeed
deriving Repr, DecidableEq

/-- Resolved IAPConfig (iapAuthMiddleware.ts lines 24-36). Field presence /
truthiness of the optional strings is modelled by non-emptiness. -/
structure IAPConfig where
  enabled : Bool
  projectNumber : String
  projectId : String
  backendServiceId : String
  devAutoSeed : Option DevAutoSeed
deriving Repr, DecidableEq

/-- getIAPConfig (iapAuthMiddleware.ts lines 41-49):
`enabled: config.env === 'production' || config.iap.enabled`,
`devAutoSeed: config.env !== 'production' && config.iap.devAutoSeed ?
 config.iap.devAutoSeed : undefined`. -/
def getIAPConfig (c : AppConfig) : IAPConfig :=
  { enabled := c.env = "production" || c.iapEnabled
    projectNumber := c.projectNumber
    projectId := c.projectId
    backendServiceId := c.backendServiceId
    devAutoSeed := if c.env ≠ "production" ∧ c.devAutoSeed.isSome
                   then c.devAutoSeed else none }

/-- buildExpectedAudience (iapAuthMiddleware.ts lines 67-80): backend-service
(load-balancer) form takes precedence over the app-engine form. -/
def buildExpectedAudience (iapConfig : IAPConfig) : Option String :=
  if iapConfig.projectNumber ≠ "" ∧ iapConfig.backendServiceId ≠ "" then
    some ("/projects/" ++ iapConfig.projectNumber ++ "/global/backendServices/"
          ++ iapConfig.backendServiceId)
  else if iapConfig.projectNumber ≠ "" ∧ iapConfig.projectId ≠ "" then
    some ("/projects/" ++ iapConfig.projectNumber ++ "/apps/" ++ iapConfig.projectId)
  else
    none

/-- Validated identity data (iapAuthMiddleware.ts lines 10-19). -/
structure IAPUserData where
  email : String
  sub : String
  name : Option String
  picture : Option String
  aud : String
  iss : String
  iat : Nat
  exp : Nat
deriving Repr, DecidableEq

/-- createDevIAPUser (iapAuthMiddleware.ts lines 85-97). `now` is the call's
wall-clock time in epoch seconds (Math.floor(Date.now() / 1000)).  The `?.`
accesses interpolate the JS string "undefined" into the sub template when the
devAutoSeed block is absent, and `|| ''` defaults the email. -/
def createDevIAPUser (c : AppConfig) (now : Nat) : IAPUserData :=
  { email := (c.devAutoSeed.map (fun d => d.user.email)).getD ""
    sub := "accounts.google.com:dev-"
           ++ (c.devAutoSeed.map (fun d => d.user.email)).getD "undefined"
    name := c.devAutoSeed.map (fun d => d.user.name)
    picture := none
    aud := "/projects/dev/apps/dev"
    iss := "https://cloud.google.com/iap"
    iat := now
    exp := now + 3600 }

/-- Error taxonomy of the middleware / provisioning chain
(UnauthorizedException, InternalServerErrorException, BadRequestException,
ForbiddenException with message / details / domain payload). -/
inductive AuthError where
  | unauthorized (msg : String)
  | internalServerError
  | badRequest (msg : String)
  | forbidden (msg details domain : String)
deriving Repr, DecidableEq

/-- The decoded JWT payload as returned by ticket.getPayload(): every claim
optional before the middleware's own checks. -/
structure JwtPayload where
  email : Option String
  sub : Option String
  name : Option String
  picture : Option String
  aud : String
  iss : String
  iat : Option Nat
  exp : Option Nat
deriving Repr, DecidableEq

/-- Payload extraction step of validateIAPToken (iapAuthMiddleware.ts lines
126-144), after signature / audience / issuer verification has succeeded:
rejects a missing payload, then rejects when email, sub, iat or exp is
falsy, else returns the extracted IAPUserData. -/
def extractIAPUserData (payload : Option JwtPayload) : Except AuthError IAPUserData :=
  match payload with
  | none => .error (.unauthorized "Invalid JWT payload")
  | some p =>
    if strTruthy p.email ∧ strTruthy p.sub ∧ natTruthy p.iat ∧ natTruthy p.exp then
      .ok { email := p.email.getD ""
            sub := p.sub.getD ""
            name := p.name
            picture := p.picture
            aud := p.aud
            iss := p.iss
            iat := p.iat.getD 0
            exp := p.exp.getD 0 }
    else
      .error (.unauthorized "Invalid JWT payload - missing email, sub, iat, or exp")

/-- The three ways the middleware's mode dispatch can go
(iapAuthMiddleware.ts lines 161-194). -/
inductive AuthMode where
  | tokenPath
  | devFallback
  | reject
deriving Repr, DecidableEq

/-- Mode dispatch of iapAuthMiddleware (lines 164-194): throw Unauthorized
when neither enabled nor devAutoSeed; token validation when enabled; dev
fallback when the devAutoSeed object is present; else Unauthorized. -/
def selectAuthMode (iapConfig : IAPConfig) : AuthMode :=
  if iapConfig.enabled = false ∧ iapConfig.devAutoSeed.isNone then .reject
  else if iapConfig.enabled then .tokenPath
  else if iapConfig.devAutoSeed.isSome then .devFallback
  else .reject

end GenTpl

namespace GenTpl

/-- C1: buildExpectedAudience returns the backend-service (load-balancer)
form whenever projectNumber and backendServiceId are both present,
regardless of projectId; the app-engine form when projectNumber and
projectId are present but backendServiceId is not; and none otherwise. -/
theorem C1_buildExpectedAudience_precedence (cfg : IAPConfig) :
    (cfg.projectNumber ≠ "" → cfg.backendServiceId ≠ "" →
      buildExpectedAudience cfg =
        some ("/projects/" ++ cfg.projectNumber ++ "/global/backendServices/"
              ++ cfg.backendServiceId)) ∧
    (cfg.projectNumber ≠ "" → cfg.projectId ≠ "" → cfg.backendServiceId = "" →
      buildExpectedAudience cfg =
        some ("/projects/" ++ cfg.projectNumber ++ "/apps/" ++ cfg.projectId)) ∧
    (cfg.projectNumber = "" ∨ (cfg.backendServiceId = "" ∧ cfg.projectId = "") →
      buildExpectedAudience cfg = none) := by
  refine ⟨?_, ?_, ?_⟩
  · intro h1 h2
    simp [buildExpectedAudience, h1, h2]
  · intro h1 h2 h3
    simp [buildExpectedAudience, h1, h2, h3]
  · rintro (h | ⟨h1, h2⟩) <;> simp [buildExpectedAudience, *]

/-- Witness for C1 at a concrete configuration with all three identifiers
set: the backend-service form wins. -/
theorem C1_buildExpectedAudience_precedence_witness :
    ("123" : String) ≠ "" ∧
    buildExpectedAudience
      { enabled := true, projectNumber := "123", projectId := "myapp",
        backendServiceId := "svc9", devAutoSeed := none } =
      some "/projects/123/global/backendServices/svc9" :=
  ⟨by decide,
   ((C1_buildExpectedAudience_precedence
      { enabled := true, projectNumber := "123", projectId := "myapp",
        backendServiceId := "svc9", devAutoSeed := none }).1
      (by decide) (by decide))⟩

end GenTpl

namespace GenTpl

/-- C2 (code bug): with enforcement off, the environment not production, and
the auto-seed flag devAutoSeed.enabled explicitly false, the middleware still
takes the development fallback path and synthesizes a dev identity — it
tests only the presence of the devAutoSeed object (which config.ts always
supplies), never its enabled flag.  The claim (and the config.ts doc
comment "APPLIES ONLY WHEN: iap=false AND env=develop AND devAutoSeed=true")
says such a request must be rejected with Unauthorized. -/
theorem C2_devFallback_ignores_enabled_flag :
    let c : AppConfig :=
      { env := "development", iapEnabled := false,
        projectNumber := "", projectId := "", backendServiceId := "",
        devAutoSeed := some { enabled := false,
                              user := { email := "dev@temp-local-only.invalid",
                                        name := "Joe Dev User" } } }
    (getIAPConfig c).enabled = false ∧
    (∀ d, (getIAPConfig c).devAutoSeed = some d → d.enabled = false) ∧
    selectAuthMode (getIAPConfig c) = AuthMode.devFallback := by
  refine ⟨rfl, ?_, rfl⟩
  intro d hd
  simp [getIAPConfig] at hd
  simp [← hd]

/-- C6: a token that passed signature, audience and issuer verification but
whose payload is missing the email claim or the sub claim is rejected with
Unauthorized by the extraction step of validateIAPToken. -/
theorem C6_missing_email_or_sub_unauthorized (p : JwtPayload)
    (h : p.email = none ∨ p.sub = none) :
    extractIAPUserData (some p) =
      Except.error (AuthError.unauthorized
        "Invalid JWT payload - missing email, sub, iat, or exp") := by
  rcases h with h | h <;>
    simp [extractIAPUserData, strTruthy, h]

/-- Witness for C6: a payload that carries sub/iat/exp but no email is
rejected with Unauthorized. -/
theorem C6_missing_email_or_sub_unauthorized_witness :
    extractIAPUserData (some { email := none, sub := some "accounts.google.com:1",
                               name := none, picture := none,
                               aud := "/projects/1/apps/a",
                               iss := "https://cloud.google.com/iap",
                               iat := some 100, exp := some 4200 }) =
      Except.error (AuthError.unauthorized
        "Invalid JWT payload - missing email, sub, iat, or exp") :=
  C6_missing_email_or_sub_unauthorized _ (Or.inl rfl)

/-- C8: with enforcement off and auto-seed on, any two calls to
createDevIAPUser yield identical email and subject id (both derived from the
static configuration alone), while each call's expiry is that call's
wall-clock seconds plus exactly 3600. -/
theorem C8_devUser_deterministic_fresh_expiry (c : AppConfig)
    (now1 now2 : Nat)
    (hoff : (getIAPConfig c).enabled = false)
    (hseed : (getIAPConfig c).devAutoSeed.isSome = true) :
    (createDevIAPUser c now1).email = (createDevIAPUser c now2).email ∧
    (createDevIAPUser c now1).sub = (createDevIAPUser c now2).sub ∧
    (createDevIAPUser c now1).exp = now1 + 3600 ∧
    (createDevIAPUser c now2).exp = now2 + 3600 := by
  exact ⟨rfl, rfl, rfl, rfl⟩

/-- Witness for C8 at a concrete development configuration and two distinct
call times. -/
theorem C8_devUser_deterministic_fresh_expiry_witness :
    let c : AppConfig :=
      { env := "development", iapEnabled := false,
        projectNumber := "", projectId := "", backendServiceId := "",
        devAutoSeed := some { enabled := true,
                              user := { email := "dev@temp-local-only.invalid",
                                        name := "Joe Dev User" } } }
    (createDevIAPUser c 1000).email = (createDevIAPUser c 2500).email ∧
    (createDevIAPUser c 1000).sub = (createDevIAPUser c 2500).sub ∧
    (createDevIAPUser c 1000).exp = 1000 + 3600 ∧
    (createDevIAPUser c 2500).exp = 2500 + 3600 :=
  C8_devUser_deterministic_fresh_expiry _ 1000 2500 (by decide) (by decide)

/-- C10: in a production environment the resolved IAP configuration always
has enforcement enabled (whatever the IAP_ENABLED flag says) and no
devAutoSeed block, so the middleware's mode dispatch can never choose the
development fallback path. -/
theorem C10_production_forces_enforcement (c : AppConfig)
    (h : c.env = "production") :
    (getIAPConfig c).enabled = true ∧
    (getIAPConfig c).devAutoSeed = none ∧
    selectAuthMode (getIAPConfig c) = AuthMode.tokenPath := by
  have he : (getIAPConfig c).enabled = true := by
    simp [getIAPConfig, h]
  have hd : (getIAPConfig c).devAutoSeed = none := by
    simp [getIAPConfig, h]
  refine ⟨he, hd, ?_⟩
  simp [selectAuthMode, he]

/-- Witness for C10: a production config with the IAP flag off and an
auto-seed block present still resolves to enforced token validation. -/
theorem C10_production_forces_enforcement_witness :
    let c : AppConfig :=
      { env := "production", iapEnabled := false,
        projectNumber := "1", projectId := "a", backendServiceId := "",
        devAutoSeed := some { enabled := true,
                              user := { email := "dev@temp-local-only.invalid",
                                        name := "Joe Dev User" } } }
    (getIAPConfig c).enabled = true ∧
    (getIAPConfig c).devAutoSeed = none ∧
    selectAuthMode (getIAPConfig c) = AuthMode.tokenPath :=
  C10_production_forces_enforcement _ rfl

end GenTpl

namespace GenTpl

/-- Split a character list at every occurrence of a separator character;
always returns at least one (possibly empty) segment, exactly like JS
String.prototype.split with a one-character separator. -/
def splitChar (sep : Char) : List Char → List (List Char)
  | [] => [[]]
  | c :: cs =>
    match splitChar sep cs with
    | [] => [[c]]
    | r :: rs => if c = sep then [] :: r :: rs else (c :: r) :: rs

/-- JS s.split(sep) for a one-character separator. -/
def jsSplit (sep : Char) (s : String) : List String :=
  (splitChar sep s.toList).map (fun l => String.mk l)

/-- JS Array.prototype.join(sep). -/
def jsJoin (sep : String) : List String → String
  | [] => ""
  | [x] => x
  | x :: y :: xs => x ++ sep ++ jsJoin sep (y :: xs)

/-- JS email.split('@')[0]: the local part of an email address. -/
def localPart (email : String) : String := (jsSplit '@' email).getD 0 ""

/-- JS email.split('@')[1]: the text after the first '@', or "" when the
address has no '@' (undefined and "" are both falsy at the use sites). -/
def emailDomain (email : String) : String := (jsSplit '@' email).getD 1 ""

/-- Display-name parsing of IapUserSessionService.findOrCreateUser
(part_002 lines 104-107): the source string is
`iapUser.name || iapUser.email.split('@')[0]`, first name is
`nameParts[0] || 'User'`, last name is `nameParts.slice(1).join(' ') || ''`. -/
def parseName (name : Option String) (email : String) : String × String :=
  let nameParts := jsSplit ' ' (if strTruthy name then name.getD "" else localPart email)
  let firstName := if nameParts.getD 0 "" ≠ "" then nameParts.getD 0 "" else "User"
  let lastName := if jsJoin " " (nameParts.drop 1) ≠ ""
                  then jsJoin " " (nameParts.drop 1) else ""
  (firstName, lastName)

/-- Persisted User document (spec §3; created by UserRepository.create with
the fields passed in part_002 lines 110-119). Document ids are modelled as
naturals drawn from the Directory counter. -/
structure User where
  id : Nat
  email : String
  firstName : String
  lastName : String
  companyId : Nat
  externalId : Option String
  avatar : Option String
  displayName : Option String
  createdBy : String
deriving Repr, DecidableEq

/-- Persisted Company document (spec §3; created with the fields passed in
part_002 lines 130-137). -/
structure Company where
  id : Nat
  name : String
  aiModel : String
  domains : List String
  createdBy : String
deriving Repr, DecidableEq

/-- The Directory: external persistent store of Users and Companies
(spec §3), with a counter supplying fresh document ids. -/
structure Directory where
  users : List User
  companies : List Company
  nextId : Nat
deriving Repr, DecidableEq

/-- Modelled from the spec: UserRepository.findByExternalId (the repository
lives outside src/) — Directory lookup of a User by its unique external
subject id (spec §3, §4.3 step 1). -/
def findByExternalId (sub : String) (dir : Directory) : Option User :=
  dir.users.find? (fun u => u.externalId = some sub)

/-- Modelled from the spec: CompanyRepository.findByDomain (the repository
lives outside src/) — Directory lookup of the Company registered for an
email domain (spec §3, §4.3 step 3; one company per domain). -/
def findByDomain (domain : String) (dir : Directory) : Option Company :=
  dir.companies.find? (fun c => domain ∈ c.domains)

/-- createDummyCompany (part_002 lines 130-137): a Company named after the
given domain, system-created, with that single domain registered.
Persistence through CompanyRepository.create is modelled from the spec as
appending the document with a fresh id. -/
def createDummyCompany (domain : String) (dir : Directory) : Company × Directory :=
  let company : Company :=
    { id := dir.nextId, name := domain, aiModel := "ClaudeHaiku45",
      domains := [domain], createdBy := "system" }
  (company, { dir with companies := dir.companies ++ [company],
                       nextId := dir.nextId + 1 })

/-- IapUserSessionService.findOrCreateUser (part_002 lines 66-124).  The
source reads getIAPConfig() inside the missing-company branch; here the
resolved IAPConfig is passed in.  UserRepository.create is modelled from the
spec as appending the document with a fresh id.  Errors leave the Directory
untouched (the input `dir` is returned nowhere on the error path). -/
def findOrCreateUser (iapConfig : IAPConfig) (iapUser : IAPUserData)
    (dir : Directory) : Except AuthError (User × Directory) :=
  match findByExternalId iapUser.sub dir with
  | some u => .ok (u, dir)
  | none =>
    let dom := emailDomain iapUser.email
    if dom = "" then
      .error (.badRequest "Invalid email format - no domain found")
    else
      let companyResult : Except AuthError (Company × Directory) :=
        match findByDomain dom dir with
        | some c => .ok (c, dir)
        | none =>
          if iapConfig.enabled = false ∧ iapConfig.devAutoSeed.isSome then
            .ok (createDummyCompany
              (emailDomain ((iapConfig.devAutoSeed.map (fun d => d.user.email)).getD ""))
              dir)
          else
            .error (.forbidden
              ("Access denied: No company exists for domain \"" ++ dom ++ "\"")
              "Please contact your administrator to set up your company account."
              dom)
      match companyResult with
      | .error e => .error e
      | .ok (company, dir1) =>
        let user : User :=
          { id := dir1.nextId, email := iapUser.email,
            firstName := (parseName iapUser.name iapUser.email).1,
            lastName := (parseName iapUser.name iapUser.email).2,
            companyId := company.id, externalId := some iapUser.sub,
            avatar := iapUser.picture, displayName := iapUser.name,
            createdBy := "system" }
        .ok (user, { dir1 with users := dir1.users ++ [user],
                               nextId := dir1.nextId + 1 })

end GenTpl

namespace GenTpl

/-- C3: a validated identity whose subject id already maps to a persisted
User gets that User back with the Directory unchanged; a first login with a
never-seen subject id whose email domain has a registered Company creates
exactly one User (appended to the Directory, companies untouched) linked to
that Company, recording the subject id, avatar and display name. -/
theorem C3_findOrCreateUser_idempotent_provisioning (cfg : IAPConfig)
    (iapUser : IAPUserData) (dir : Directory) :
    (∀ u, findByExternalId iapUser.sub dir = some u →
      findOrCreateUser cfg iapUser dir = .ok (u, dir)) ∧
    (∀ c, findByExternalId iapUser.sub dir = none →
      emailDomain iapUser.email ≠ "" →
      findByDomain (emailDomain iapUser.email) dir = some c →
      ∃ newUser,
        findOrCreateUser cfg iapUser dir =
          .ok (newUser, { dir with users := dir.users ++ [newUser],
                                   nextId := dir.nextId + 1 }) ∧
        newUser.companyId = c.id ∧
        newUser.externalId = some iapUser.sub ∧
        newUser.avatar = iapUser.picture ∧
        newUser.displayName = iapUser.name ∧
        newUser.email = iapUser.email) := by
  constructor
  · intro u hu
    simp [findOrCreateUser, hu]
  · intro c hu hd hc
    refine ⟨{ id := dir.nextId, email := iapUser.email,
              firstName := (parseName iapUser.name iapUser.email).1,
              lastName := (parseName iapUser.name iapUser.email).2,
              companyId := c.id, externalId := some iapUser.sub,
              avatar := iapUser.picture, displayName := iapUser.name,
              createdBy := "system" }, ?_, rfl, rfl, rfl, rfl, rfl⟩
    simp [findOrCreateUser, hu, hd, hc]

/-- Witness for C3 at a concrete Directory holding a registered Company for
acme.com and no user for the incoming subject id. -/
theorem C3_findOrCreateUser_idempotent_provisioning_witness :
    let cfg : IAPConfig :=
      { enabled := true, projectNumber := "1", projectId := "a",
        backendServiceId := "", devAutoSeed := none }
    let acme : Company :=
      { id := 0, name := "Acme", aiModel := "ClaudeHaiku45",
        domains := ["acme.com"], createdBy := "admin" }
    let dir : Directory := { users := [], companies := [acme], nextId := 1 }
    let iapUser : IAPUserData :=
      { email := "u@acme.com", sub := "accounts.google.com:7",
        name := some "Ursula Q", picture := some "http://pic",
        aud := "aud", iss := "iss", iat := 1, exp := 2 }
    ∃ newUser,
      findOrCreateUser cfg iapUser dir =
        .ok (newUser, { dir with users := dir.users ++ [newUser],
                                 nextId := dir.nextId + 1 }) ∧
      newUser.companyId = acme.id ∧
      newUser.externalId = some iapUser.sub ∧
      newUser.avatar = iapUser.picture ∧
      newUser.displayName = iapUser.name ∧
      newUser.email = iapUser.email := by
  intro cfg acme dir iapUser
  exact (C3_findOrCreateUser_idempotent_provisioning cfg iapUser dir).2 acme
    (by decide) (by decide) (by decide)

/-- C4 (code bug): auto-seed is not active here — enforcement is off and
the explicit devAutoSeed.enabled flag is false (the reachable default
development configuration, the same one as in C2) — and the email domain
unknown.org has no registered Company, so the claim requires Forbidden with
the attempted domain and nothing created.  Instead findOrCreateUser, whose
missing-company guard tests only the presence of the devAutoSeed object,
creates a dummy Company named after the auto-seed user's own domain plus a
User linked to it and succeeds. -/
theorem C4_no_company_dummy_seed_bug :
    let cdev : AppConfig :=
      { env := "development", iapEnabled := false,
        projectNumber := "", projectId := "", backendServiceId := "",
        devAutoSeed := some { enabled := false,
                              user := { email := "dev@temp-local-only.invalid",
                                        name := "Joe Dev User" } } }
    let iapUser : IAPUserData :=
      { email := "u@unknown.org", sub := "accounts.google.com:9",
        name := none, picture := none, aud := "aud", iss := "iss",
        iat := 1, exp := 2 }
    let dir : Directory := { users := [], companies := [], nextId := 0 }
    (getIAPConfig cdev).enabled = false ∧
    (∀ d, (getIAPConfig cdev).devAutoSeed = some d → d.enabled = false) ∧
    findByExternalId iapUser.sub dir = none ∧
    findByDomain (emailDomain iapUser.email) dir = none ∧
    findOrCreateUser (getIAPConfig cdev) iapUser dir =
      .ok ({ id := 1, email := "u@unknown.org", firstName := "u",
             lastName := "", companyId := 0,
             externalId := some "accounts.google.com:9", avatar := none,
             displayName := none, createdBy := "system" },
           { users := [{ id := 1, email := "u@unknown.org", firstName := "u",
                         lastName := "", companyId := 0,
                         externalId := some "accounts.google.com:9",
                         avatar := none, displayName := none,
                         createdBy := "system" }],
             companies := [{ id := 0, name := "temp-local-only.invalid",
                             aiModel := "ClaudeHaiku45",
                             domains := ["temp-local-only.invalid"],
                             createdBy := "system" }],
             nextId := 2 }) := by
  refine ⟨rfl, ?_, rfl, rfl, rfl⟩
  intro d hd
  simp [getIAPConfig] at hd
  simp [← hd]

end GenTpl

namespace GenTpl

/-- C7 counterexample: for an identity with no display name and email
jane@acme.com, the provisioning name parser falls back to the email's local
part, so the first name is "jane" — not the default "User" the claim
prescribes for an absent display name. -/
theorem C7_counterexample_localPart_not_User :
    (parseName none "jane@acme.com").1 = "jane" ∧ ("jane" : String) ≠ "User" := by
  exact ⟨by decide, by decide⟩

/-- The name-parsing rule as amended: the parsed source string is the
display name when present and non-empty, otherwise the email's local part
(the text before '@'); the first space-delimited token of that source
becomes the first name, defaulting to "User" when that token is empty; the
remaining tokens joined by spaces become the last name, empty by default. -/
def parseNameAmended (name : Option String) (email : String) : String × String :=
  let source :=
    match name with
    | some s => if s = "" then localPart email else s
    | none => localPart email
  let tokens := jsSplit ' ' source
  (if tokens.getD 0 "" = "" then "User" else tokens.getD 0 "",
   jsJoin " " (tokens.drop 1))

/-- C7 (amended): the display-name parsing of user provisioning agrees with
the amended rule on every display name and email. -/
theorem C7_parseName_amended_agrees (name : Option String) (email : String) :
    parseName name email = parseNameAmended name email := by
  have hfirst : ∀ x : String, (if x ≠ "" then x else "User") =
      (if x = "" then "User" else x) := by
    intro x; by_cases h : x = "" <;> simp [h]
  have hlast : ∀ j : String, (if j ≠ "" then j else "") = j := by
    intro j; by_cases h : j = "" <;> simp [h]
  cases name with
  | none =>
    simp only [parseName, parseNameAmended, strTruthy, hfirst, hlast,
      Bool.false_eq_true, if_false]
  | some s =>
    by_cases hs : s = "" <;>
      simp [parseName, parseNameAmended, strTruthy, hfirst, hlast, hs]

end GenTpl

namespace GenTpl

/-- Persisted Session document (part_001; spec §3): opaque id, user id,
expiry, client metadata, creation timestamp.  Timestamps and expiries are
epoch milliseconds. -/
structure Session where
  sessionId : String
  userId : Nat
  expiresAt : Nat
  createdAt : Nat
  ipAddress : Option String
  userAgent : Option String
deriving Repr, DecidableEq

/-- The session collection of the Directory. -/
structure SessionStore where
  sessions : List Session
deriving Repr, DecidableEq

/-- Milliseconds in one day; `expiresAt.setDate(expiresAt.getDate() + 30)`
advances the clock by thirty of these. -/
def msPerDay : Nat := 86400000

/-- Ordering of sessions by creation time, newest first. -/
def moreRecent (x y : Session) : Prop := y.createdAt ≤ x.createdAt

instance : DecidableRel moreRecent :=
  fun x y => Nat.decLe y.createdAt x.createdAt

instance : IsTotal Session moreRecent :=
  ⟨fun x y => (Nat.le_total x.createdAt y.createdAt).symm⟩

instance : IsTrans Session moreRecent :=
  ⟨fun _ _ _ hab hbc => Nat.le_trans hbc hab⟩

/-- Modelled from the spec: SessionRepository.findByUserId (the repository
lives outside src/) — the stored sessions of a user, most recently created
first, so that `existingSessions[0]` is "the most recently created"
(spec §4.4). -/
def findByUserId (uid : Nat) (store : SessionStore) : List Session :=
  List.insertionSort moreRecent (store.sessions.filter (fun s => s.userId = uid))

/-- SessionService.createSession (part_001 lines 23-42): a fresh opaque id,
expiry now + 30 days, persisted through SessionRepository.create (modelled
from the spec as appending the document). -/
def createSession (uid : Nat) (freshId : String) (now : Nat)
    (ip ua : Option String) (store : SessionStore) : Session × SessionStore :=
  let session : Session :=
    { sessionId := freshId, userId := uid, expiresAt := now + 30 * msPerDay,
      createdAt := now, ipAddress := ip, userAgent := ua }
  (session, { sessions := store.sessions ++ [session] })

/-- SessionService.findOrCreateSession (part_001 lines 53-69): reuse
`existingSessions[0]` as-is when any session exists, else create. -/
def findOrCreateSession (uid : Nat) (freshId : String) (now : Nat)
    (ip ua : Option String) (store : SessionStore) : Session × SessionStore :=
  match findByUserId uid store with
  | [] => createSession uid freshId now ip ua store
  | s :: _ => (s, store)

end GenTpl

namespace GenTpl

/-- C5: when a user has existing sessions, findOrCreateSession returns the
most recently created one with id and expiry unchanged and leaves the store
untouched, so a second call returns the same session id; only when no
session exists is a new one created, with the freshly generated opaque id
and an expiry of now plus 30 days. -/
theorem C5_findOrCreateSession_reuse_or_create (uid : Nat) (fid fid2 : String)
    (now now2 : Nat) (ip ua ip2 ua2 : Option String) (store : SessionStore) :
    (∀ s rest, findByUserId uid store = s :: rest →
      findOrCreateSession uid fid now ip ua store = (s, store) ∧
      s ∈ store.sessions ∧ s.userId = uid ∧
      (∀ t ∈ store.sessions, t.userId = uid → t.createdAt ≤ s.createdAt) ∧
      (findOrCreateSession uid fid2 now2 ip2 ua2
        (findOrCreateSession uid fid now ip ua store).2).1.sessionId
        = s.sessionId) ∧
    (findByUserId uid store = [] →
      findOrCreateSession uid fid now ip ua store =
        ({ sessionId := fid, userId := uid, expiresAt := now + 30 * msPerDay,
           createdAt := now, ipAddress := ip, userAgent := ua },
         { sessions := store.sessions
             ++ [{ sessionId := fid, userId := uid,
                   expiresAt := now + 30 * msPerDay, createdAt := now,
                   ipAddress := ip, userAgent := ua }] })) := by
  constructor
  · intro s rest h
    have hperm := List.perm_insertionSort moreRecent
      (store.sessions.filter (fun t => t.userId = uid))
    have hmem_sorted : s ∈ findByUserId uid store := by
      rw [h]; exact List.mem_cons_self _ _
    have hmem_filter : s ∈ store.sessions.filter (fun t => t.userId = uid) :=
      hperm.mem_iff.mp hmem_sorted
    have hs1 : s ∈ store.sessions := List.mem_of_mem_filter hmem_filter
    have hs2 : s.userId = uid := by
      have := List.of_mem_filter hmem_filter
      simpa using this
    have hsorted : List.Sorted moreRecent (s :: rest) := by
      have := List.sorted_insertionSort moreRecent
        (store.sessions.filter (fun t => t.userId = uid))
      rwa [show List.insertionSort moreRecent
        (store.sessions.filter (fun t => t.userId = uid))
        = findByUserId uid store from rfl, h] at this
    have hfirst : findOrCreateSession uid fid now ip ua store = (s, store) := by
      simp [findOrCreateSession, h]
    refine ⟨hfirst, hs1, hs2, ?_, ?_⟩
    · intro t ht htu
      have htf : t ∈ store.sessions.filter (fun x => x.userId = uid) :=
        List.mem_filter.mpr ⟨ht, by simp [htu]⟩
      have htsorted : t ∈ s :: rest := by
        rw [← h]; exact hperm.mem_iff.mpr htf
      rcases List.mem_cons.mp htsorted with rfl | hrest
      · exact Nat.le_refl _
      · exact List.rel_of_sorted_cons hsorted t hrest
    · rw [hfirst]
      simp [findOrCreateSession, h]
  · intro h
    simp [findOrCreateSession, h, createSession]

/-- Witness for C5 at a concrete store: two stored sessions for user 5, the
newer of which (created at 20) is reused unchanged on both calls. -/
theorem C5_findOrCreateSession_reuse_or_create_witness :
    let sOld : Session :=
      { sessionId := "old", userId := 5, expiresAt := 100, createdAt := 10,
        ipAddress := none, userAgent := none }
    let sNew : Session :=
      { sessionId := "new", userId := 5, expiresAt := 200, createdAt := 20,
        ipAddress := none, userAgent := none }
    let store : SessionStore := { sessions := [sOld, sNew] }
    findOrCreateSession 5 "fresh" 1000 none none store = (sNew, store) ∧
    sNew ∈ store.sessions ∧ sNew.userId = 5 ∧
    (∀ t ∈ store.sessions, t.userId = 5 → t.createdAt ≤ sNew.createdAt) ∧
    (findOrCreateSession 5 "fresh2" 2000 none none
      (findOrCreateSession 5 "fresh" 1000 none none store).2).1.sessionId
      = sNew.sessionId := by
  intro sOld sNew store
  exact (C5_findOrCreateSession_reuse_or_create 5 "fresh" "fresh2" 1000 2000
    none none none none store).1 sNew [sOld] (by decide)

end GenTpl

namespace GenTpl

/-- Minimal session view attached to a request (AccessTokenService.ts lines
74-77). -/
structure SessionData where
  sessionId : String
  userId : Nat
deriving Repr, DecidableEq

/-- ValidateRequestOptions (AccessTokenService.ts lines 5-7). -/
structure ValidateRequestOptions where
  passThruWithoutSession : Bool
deriving Repr, DecidableEq

/-- What AccessTokenService.validateRequest does with a request: call the
next handler (with pre-existing, absent, or freshly attached session data)
or answer 401 via denyRequest with an internal error string and a client
message. -/
inductive RequestOutcome where
  | nextPreAuthenticated
  | nextWithoutSession
  | deny401 (err msg : String)
  | nextWithSession (sd : SessionData)
deriving Repr, DecidableEq

/-- AccessTokenService.validateRequest (AccessTokenService.ts lines 33-84):
continue when iapAuthMiddleware already attached session data; otherwise
read the `session` cookie; a falsy cookie passes through only with
passThruWithoutSession set, else 401; a carried session id is looked up
(SessionRepository.findBySessionId lives outside src/ and is abstracted as
the `lookupSession` argument), 401 when not found, else the minimal session
view is attached and the chain continues. -/
def validateRequest (sessionData : Option SessionData)
    (cookieSession : Option String)
    (options : Option ValidateRequestOptions)
    (lookupSession : String → Option Session) : RequestOutcome :=
  match sessionData with
  | some _ => .nextPreAuthenticated
  | none =>
    if strTruthy cookieSession = false then
      if (options.map (fun o => o.passThruWithoutSession)).getD false then
        .nextWithoutSession
      else
        .deny401 "No session provided"
          "Authentication required. Please access through Google Cloud IAP or create a session."
    else
      match lookupSession (cookieSession.getD "") with
      | none => .deny401 "Invalid session" "Session not found or expired."
      | some s => .nextWithSession { sessionId := s.sessionId, userId := s.userId }

end GenTpl

namespace GenTpl

/-- C9: on the cookie validation path (no session data attached by the IAP
middleware), a request carrying no session cookie is rejected 401 when
passThruWithoutSession is unset, and proceeds to the next handler with no
session data attached when the option is set. -/
theorem C9_cookie_path_no_cookie (cookieSession : Option String)
    (options : Option ValidateRequestOptions)
    (lookupSession : String → Option Session)
    (hc : strTruthy cookieSession = false) :
    ((options.map (fun o => o.passThruWithoutSession)).getD false = false →
      validateRequest none cookieSession options lookupSession =
        .deny401 "No session provided"
          "Authentication required. Please access through Google Cloud IAP or create a session.") ∧
    ((options.map (fun o => o.passThruWithoutSession)).getD false = true →
      validateRequest none cookieSession options lookupSession =
        .nextWithoutSession) := by
  constructor
  · intro hopt
    simp [validateRequest, hc, hopt]
  · intro hopt
    simp [validateRequest, hc, hopt]

/-- Witness for C9: with no cookie, absent options deny the request and
passThruWithoutSession set passes it through. -/
theorem C9_cookie_path_no_cookie_witness :
    (validateRequest none none none (fun _ => none) =
      .deny401 "No session provided"
        "Authentication required. Please access through Google Cloud IAP or create a session.") ∧
    (validateRequest none none (some { passThruWithoutSession := true })
        (fun _ => none) = .nextWithoutSession) :=
  ⟨(C9_cookie_path_no_cookie none none (fun _ => none) rfl).1 rfl,
   (C9_cookie_path_no_cookie none (some { passThruWithoutSession := true })
      (fun _ => none) rfl).2 rfl⟩

end GenTpl
